import Mathlib

/-!
Shallow embedding of `vectorutils.py` (pylnagb, raw vector operations).

The module works on raw Python vectors: lists or tuples of 2 or 3 numbers.
We model a Python value passed to these functions as `PyObj α` (a list, a
tuple, a text string, or a non-iterable object) with numeric elements drawn
from `α` (instantiated at `ℝ` for the arithmetic functions, matching the
idealised real semantics of the float operations used by the source).

Python exceptions are modelled explicitly with `Except PyErr`: an operation
that can raise returns `Except.error e` for the exception kind `e` it raises,
and total operations keep a plain return type.  The source raises the builtin
`TypeError` from validation, `DimensionError` (imported from `linagb_error`)
from addition, `IndexError` from indexing an empty argument tuple, and
`ZeroDivisionError` from float division by zero; an unbound local would
surface as a `NameError`.
-/

/-- Exception kinds that the embedded code can raise. -/
inductive PyErr where
  | typeError
  | dimensionError
  | indexError
  | zeroDivisionError
  | nameError
deriving DecidableEq

/-- A Python value as seen by `vectorutils.py`: an ordered sequence (list or
tuple) of elements, a text string, or some non-iterable object. -/
inductive PyObj (α : Type) where
  | list (xs : List α)
  | tuple (xs : List α)
  | str (s : String)
  | nonIterable
deriving DecidableEq

namespace PyObj

/-- Python `isinstance(obj, Iterable)`: lists, tuples and strings are iterable. -/
def isIterable : PyObj α → Bool
  | .list _ => true
  | .tuple _ => true
  | .str _ => true
  | .nonIterable => false

/-- Python `type(obj) is str`. -/
def isStr : PyObj α → Bool
  | .str _ => true
  | _ => false

/-- Python `len(obj)` for the iterable shapes (never consulted on non-iterables,
where Python `len` would itself raise). -/
def len : PyObj α → Nat
  | .list xs => xs.length
  | .tuple xs => xs.length
  | .str s => s.length
  | .nonIterable => 0

/-- The numeric elements reachable by indexing (only consulted on validated
inputs, which are lists or tuples). -/
def elems : PyObj α → List α
  | .list xs => xs
  | .tuple xs => xs
  | .str _ => []
  | .nonIterable => []

/-- Replace every element, keeping the shape.  Used to express that
validation never inspects element contents. -/
def map (f : α → β) : PyObj α → PyObj β
  | .list xs => .list (xs.map f)
  | .tuple xs => .tuple (xs.map f)
  | .str s => .str s
  | .nonIterable => .nonIterable

end PyObj

/-- Conversion `math.radians`: degrees to radians. -/
noncomputable def radians (d : ℝ) : ℝ := d * Real.pi / 180

/-- Conversion `math.degrees`: radians to degrees. -/
noncomputable def degrees (r : ℝ) : ℝ := r * 180 / Real.pi

/-- Python float division `a / b`, raising `ZeroDivisionError` when `b == 0`. -/
noncomputable def pydiv (a b : ℝ) : Except PyErr ℝ :=
  if b = 0 then Except.error PyErr.zeroDivisionError else Except.ok (a / b)

/-- Python sequence indexing `xs[i]`, raising `IndexError` out of bounds. -/
def pyIndex (xs : List α) (i : Nat) : Except PyErr α :=
  match xs[i]? with
  | some a => Except.ok a
  | none => Except.error PyErr.indexError

/-- The condition tested by `validate_vector`:
`isinstance(obj, Iterable) and type(obj) is not str and 1 < len(obj) < 4`. -/
def validate_check (obj : PyObj α) : Bool :=
  obj.isIterable && !obj.isStr && (decide (1 < obj.len) && decide (obj.len < 4))

/-- Function `validate_vector(obj, throwerr)`: returns `True` on a valid vector
representation; otherwise raises `TypeError` when `throwerr` is set and
returns `False` when it is not. -/
def validate_vector (obj : PyObj α) (throwerr : Bool) : Except PyErr Bool :=
  if validate_check obj then Except.ok true
  else if throwerr then Except.error PyErr.typeError
  else Except.ok false

/-- Function `two_to_three(vector_2)`: on a valid input, returns it unchanged when it
already has 3 elements and otherwise evaluates `vector_2 + [0]` (list
concatenation, which raises `TypeError` unless `vector_2` is a list); on an
invalid input, falls off the function body and returns `None`. -/
def two_to_three (vector_2 : PyObj ℝ) : Except PyErr (Option (PyObj ℝ)) :=
  match validate_vector vector_2 false with
  | Except.ok true =>
    if vector_2.len = 3 then Except.ok (some vector_2)
    else
      match vector_2 with
      | PyObj.list xs => Except.ok (some (PyObj.list (xs ++ [0])))
      | _ => Except.error PyErr.typeError
  | _ => Except.ok none

/-- Function `rec(vector, physics)`: Polar/Spherical to Cartesian conversion.  The
validation call uses the default `throwerr=False`, so it cannot raise and the
invalid case returns the empty list; the arithmetic body is total. -/
noncomputable def rec' (vector : PyObj ℝ) (physics : Bool) : List ℝ :=
  match validate_vector vector false with
  | Except.ok true =>
    let v := vector.elems
    if vector.len = 2 then
      [v.getD 0 0 * Real.cos (radians (v.getD 1 0)),
       v.getD 0 0 * Real.sin (radians (v.getD 1 0))]
    else
      let inclin := if physics then v.getD 1 0 else v.getD 2 0
      let azimuth := if physics then v.getD 2 0 else v.getD 1 0
      [v.getD 0 0 * Real.sin (radians inclin) * Real.cos (radians azimuth),
       v.getD 0 0 * Real.sin (radians inclin) * Real.sin (radians azimuth),
       v.getD 0 0 * Real.cos (radians inclin)]
  | _ => []

/-- Function `pol(vector, physics)`: Cartesian to Polar/Spherical conversion.  The
divisions `vector[1] / vector[0]` and `vector[2] / r` go through `pydiv`, so
a zero divisor surfaces as `ZeroDivisionError` exactly as in Python. -/
noncomputable def pol (vector : PyObj ℝ) (physics : Bool) : Except PyErr (List ℝ) :=
  match validate_vector vector false with
  | Except.ok true =>
    let v := vector.elems
    let x := v.getD 0 0
    let y := v.getD 1 0
    if vector.len = 2 then
      match (if x = 0 then Except.ok (if 0 < y then (90 : ℝ) else -90)
             else Except.map (fun q => degrees (Real.arctan q)) (pydiv y x)) with
      | Except.ok ang => Except.ok [Real.sqrt (x ^ 2 + y ^ 2), ang]
      | Except.error e => Except.error e
    else
      let z := v.getD 2 0
      let r := Real.sqrt (x ^ 2 + y ^ 2 + z ^ 2)
      match (if x ≠ 0 then Except.map (fun q => degrees (Real.arctan q)) (pydiv y x)
             else Except.ok (if 0 < y then (90 : ℝ) else -90)) with
      | Except.error e => Except.error e
      | Except.ok azimuth =>
        match pydiv z r with
        | Except.error e => Except.error e
        | Except.ok q =>
          let inclination := degrees (Real.arccos q)
          if physics then Except.ok [r, inclination, azimuth]
          else Except.ok [r, azimuth, inclination]
  | _ => Except.ok []

/-- The loop body of `add_cartes`: validates each vector with
`throwerr=True`, raises `DimensionError` on a mismatch when `fixdim` is off,
and accumulates into `result` by indexed updates. -/
noncomputable def add_loop (base_dim : Nat) (fixdim : Bool) :
    List (PyObj ℝ) → List ℝ → Except PyErr (List ℝ)
  | [], result => Except.ok result
  | v :: rest, result =>
    match validate_vector v true with
    | Except.error e => Except.error e
    | Except.ok b =>
      if b then
        if v.len ≠ base_dim ∧ fixdim = false then Except.error PyErr.dimensionError
        else
          let result1 := result.set 0 (result.getD 0 0 + v.elems.getD 0 0)
          let result2 := result1.set 1 (result1.getD 1 0 + v.elems.getD 1 0)
          let result3 := if base_dim = v.len ∧ v.len = 3
                         then result2.set 2 (result2.getD 2 0 + v.elems.getD 2 0)
                         else result2
          add_loop base_dim fixdim rest result3
      else add_loop base_dim fixdim rest result

/-- The `try` block of `add_cartes`.  `args[0]` is read through `pyIndex`
(raising `IndexError` on an empty call); the unreachable branches where
`validate_vector(_, True)` returns `False` would leave a local unbound in
Python, modelled as `NameError`. -/
noncomputable def add_body (args : List (PyObj ℝ)) (fixdim : Bool) : Except PyErr (PyObj ℝ) :=
  if args.length = 1 then
    match pyIndex args 0 with
    | Except.error e => Except.error e
    | Except.ok a0 =>
      match validate_vector a0 true with
      | Except.error e => Except.error e
      | Except.ok b => if b then Except.ok a0 else Except.error PyErr.nameError
  else
    match pyIndex args 0 with
    | Except.error e => Except.error e
    | Except.ok a0 =>
      match validate_vector a0 true with
      | Except.error e => Except.error e
      | Except.ok b =>
        if b then
          let base_dim := a0.len
          let result0 : List ℝ := if base_dim = 2 then [0, 0] else [0, 0, 0]
          match add_loop base_dim fixdim args result0 with
          | Except.error e => Except.error e
          | Except.ok result => Except.ok (PyObj.list result)
        else Except.error PyErr.nameError

/-- Function `add_cartes(*args, fixdim)`: runs the body under
`except (TypeError, DimensionError): return []`; every other exception kind
escapes to the caller. -/
noncomputable def add_cartes (args : List (PyObj ℝ)) (fixdim : Bool) : Except PyErr (PyObj ℝ) :=
  match add_body args fixdim with
  | Except.error PyErr.typeError => Except.ok (PyObj.list [])
  | Except.error PyErr.dimensionError => Except.ok (PyObj.list [])
  | r => r

/-- Sum of component `i` over a list of vectors (0 taken when out of range;
only applied at indices every summand possesses). -/
def sumComp (args : List (PyObj ℝ)) (i : Nat) : ℝ :=
  (args.map fun v => v.elems.getD i 0).sum

/-- Sum of the third components, counting only vectors that have one. -/
def sumComp3 (args : List (PyObj ℝ)) : ℝ :=
  (args.map fun v => if v.len = 3 then v.elems.getD 2 0 else 0).sum

/-- Componentwise agreement within the floating-point tolerance 1e-9. -/
def withinTol (a b : List ℝ) : Prop :=
  a.length = b.length ∧ ∀ i, |a.getD i 0 - b.getD i 0| ≤ 1e-9

/-! Section: basic facts about the embedded definitions -/

lemma validate_vector_throw_of_valid (v : PyObj α) (h : validate_check v = true) :
    validate_vector v true = Except.ok true := by
  simp [validate_vector, h]

lemma len_of_valid (v : PyObj α) (h : validate_check v = true) :
    v.len = 2 ∨ v.len = 3 := by
  simp only [validate_check, Bool.and_eq_true, decide_eq_true_eq] at h
  omega

lemma rec_invalid (v : PyObj ℝ) (c : Bool) (h : validate_check v = false) :
    rec' v c = [] := by
  simp [rec', validate_vector, h]

lemma pol_invalid (v : PyObj ℝ) (c : Bool) (h : validate_check v = false) :
    pol v c = Except.ok [] := by
  simp [pol, validate_vector, h]

/-! Section: degree and radian conversions -/

lemma radians_degrees (t : ℝ) : radians (degrees t) = t := by
  unfold radians degrees; field_simp

lemma radians_90 : radians 90 = Real.pi / 2 := by unfold radians; ring

lemma radians_neg90 : radians (-90) = -(Real.pi / 2) := by unfold radians; ring

/-! Section: trigonometric facts behind the polar round trip -/

lemma sqrt_mul_cos_arctan (x y : ℝ) (hx : 0 < x) :
    Real.sqrt (x ^ 2 + y ^ 2) * Real.cos (Real.arctan (y / x)) = x := by
  rw [Real.cos_arctan]
  have hx0 : x ≠ 0 := ne_of_gt hx
  have h1 : 1 + (y / x) ^ 2 = (x ^ 2 + y ^ 2) / x ^ 2 := by field_simp
  have hs : Real.sqrt (x ^ 2 + y ^ 2) > 0 := by positivity
  rw [h1, Real.sqrt_div (by positivity) (x ^ 2), Real.sqrt_sq hx.le]
  field_simp

lemma sqrt_mul_sin_arctan (x y : ℝ) (hx : 0 < x) :
    Real.sqrt (x ^ 2 + y ^ 2) * Real.sin (Real.arctan (y / x)) = y := by
  rw [Real.sin_arctan]
  have hx0 : x ≠ 0 := ne_of_gt hx
  have h1 : 1 + (y / x) ^ 2 = (x ^ 2 + y ^ 2) / x ^ 2 := by field_simp
  have hs : Real.sqrt (x ^ 2 + y ^ 2) > 0 := by positivity
  rw [h1, Real.sqrt_div (by positivity) (x ^ 2), Real.sqrt_sq hx.le]
  field_simp

lemma ang_cos (x y : ℝ) (hx : 0 ≤ x) :
    Real.sqrt (x ^ 2 + y ^ 2) *
      Real.cos (radians (if x = 0 then (if 0 < y then (90:ℝ) else -90)
                         else degrees (Real.arctan (y / x)))) = x := by
  rcases eq_or_lt_of_le hx with h0 | hpos
  · rw [if_pos h0.symm, ← h0]
    by_cases hy : 0 < y
    · rw [if_pos hy, radians_90, Real.cos_pi_div_two, mul_zero]
    · rw [if_neg hy, radians_neg90, Real.cos_neg, Real.cos_pi_div_two, mul_zero]
  · rw [if_neg (ne_of_gt hpos), radians_degrees]
    exact sqrt_mul_cos_arctan x y hpos

lemma ang_sin (x y : ℝ) (hx : 0 ≤ x) :
    Real.sqrt (x ^ 2 + y ^ 2) *
      Real.sin (radians (if x = 0 then (if 0 < y then (90:ℝ) else -90)
                         else degrees (Real.arctan (y / x)))) = y := by
  rcases eq_or_lt_of_le hx with h0 | hpos
  · rw [if_pos h0.symm, ← h0]
    have hsq : Real.sqrt ((0:ℝ) ^ 2 + y ^ 2) = |y| := by
      rw [show (0:ℝ) ^ 2 + y ^ 2 = y ^ 2 by ring, Real.sqrt_sq_eq_abs]
    by_cases hy : 0 < y
    · rw [if_pos hy, radians_90, Real.sin_pi_div_two, mul_one, hsq, abs_of_pos hy]
    · rw [if_neg hy, radians_neg90, Real.sin_neg, Real.sin_pi_div_two, hsq,
        abs_of_nonpos (not_lt.mp hy)]
      ring
  · rw [if_neg (ne_of_gt hpos), radians_degrees]
    exact sqrt_mul_sin_arctan x y hpos

lemma r_cos_arccos (x y z : ℝ) (hr : 0 < x ^ 2 + y ^ 2 + z ^ 2) :
    Real.sqrt (x ^ 2 + y ^ 2 + z ^ 2) *
      Real.cos (Real.arccos (z / Real.sqrt (x ^ 2 + y ^ 2 + z ^ 2))) = z := by
  set R := Real.sqrt (x ^ 2 + y ^ 2 + z ^ 2) with hR
  have hRpos : 0 < R := Real.sqrt_pos.mpr hr
  have hzR : |z| ≤ R := by
    rw [hR, ← Real.sqrt_sq_eq_abs]
    exact Real.sqrt_le_sqrt (by nlinarith [sq_nonneg x, sq_nonneg y])
  have habs : |z / R| ≤ 1 := by
    rw [abs_div, abs_of_pos hRpos]
    exact (div_le_one hRpos).mpr hzR
  have hb := abs_le.mp habs
  rw [Real.cos_arccos hb.1 hb.2]
  field_simp

lemma r_sin_arccos (x y z : ℝ) (hr : 0 < x ^ 2 + y ^ 2 + z ^ 2) :
    Real.sqrt (x ^ 2 + y ^ 2 + z ^ 2) *
      Real.sin (Real.arccos (z / Real.sqrt (x ^ 2 + y ^ 2 + z ^ 2))) =
      Real.sqrt (x ^ 2 + y ^ 2) := by
  set R := Real.sqrt (x ^ 2 + y ^ 2 + z ^ 2) with hR
  have hRpos : 0 < R := Real.sqrt_pos.mpr hr
  have hR2 : R ^ 2 = x ^ 2 + y ^ 2 + z ^ 2 := Real.sq_sqrt hr.le
  have h1 : 1 - (z / R) ^ 2 = (x ^ 2 + y ^ 2) / R ^ 2 := by
    field_simp
    linarith [hR2]
  rw [Real.sin_arccos, h1, Real.sqrt_div (by positivity) (R ^ 2),
    Real.sqrt_sq hRpos.le]
  field_simp

/-! Section: evaluation of the conversion functions on 2- and 3-element lists -/

lemma pol_pair (x y : ℝ) (c : Bool) :
    pol (PyObj.list [x, y]) c =
      Except.ok [Real.sqrt (x ^ 2 + y ^ 2),
        if x = 0 then (if 0 < y then (90:ℝ) else -90) else degrees (Real.arctan (y / x))] := by
  by_cases hx : x = 0 <;>
    simp [pol, validate_vector, validate_check, PyObj.elems, PyObj.len, PyObj.isIterable,
      PyObj.isStr, pydiv, hx, Except.map]

lemma pol_triple (x y z : ℝ) (c : Bool) :
    pol (PyObj.list [x, y, z]) c =
      (if Real.sqrt (x ^ 2 + y ^ 2 + z ^ 2) = 0 then Except.error PyErr.zeroDivisionError
       else
        Except.ok
          (if c then
            [Real.sqrt (x ^ 2 + y ^ 2 + z ^ 2),
             degrees (Real.arccos (z / Real.sqrt (x ^ 2 + y ^ 2 + z ^ 2))),
             if x = 0 then (if 0 < y then (90:ℝ) else -90) else degrees (Real.arctan (y / x))]
          else
            [Real.sqrt (x ^ 2 + y ^ 2 + z ^ 2),
             (if x = 0 then (if 0 < y then (90:ℝ) else -90) else degrees (Real.arctan (y / x))),
             degrees (Real.arccos (z / Real.sqrt (x ^ 2 + y ^ 2 + z ^ 2)))])) := by
  by_cases hx : x = 0 <;>
    simp only [pol, validate_vector, validate_check, PyObj.elems, PyObj.len, PyObj.isIterable,
      PyObj.isStr, pydiv, hx, Except.map, if_true, if_false, ne_eq, not_true_eq_false,
      not_false_eq_true, ite_true, ite_false, List.getD, List.length_cons, List.length_nil] <;>
    norm_num <;>
    split_ifs <;> cases c <;> simp

lemma rec_pair (s t : ℝ) (c : Bool) :
    rec' (PyObj.list [s, t]) c = [s * Real.cos (radians t), s * Real.sin (radians t)] := rfl

lemma rec_triple (s a b : ℝ) (c : Bool) :
    rec' (PyObj.list [s, a, b]) c =
      [s * Real.sin (radians (if c then a else b)) * Real.cos (radians (if c then b else a)),
       s * Real.sin (radians (if c then a else b)) * Real.sin (radians (if c then b else a)),
       s * Real.cos (radians (if c then a else b))] := by
  cases c <;> rfl

/-! Section: the polar round trip on the half plane 0 <= x -/

lemma roundtrip2 (x y : ℝ) (hx : 0 ≤ x) (c : Bool) :
    ∃ p, pol (PyObj.list [x, y]) c = Except.ok p ∧ rec' (PyObj.list p) c = [x, y] := by
  refine ⟨_, pol_pair x y c, ?_⟩
  rw [rec_pair]
  rw [ang_cos x y hx, ang_sin x y hx]

lemma roundtrip3 (x y z : ℝ) (hx : 0 ≤ x) (hr : x ^ 2 + y ^ 2 + z ^ 2 ≠ 0) (c : Bool) :
    ∃ q, pol (PyObj.list [x, y, z]) c = Except.ok q ∧ rec' (PyObj.list q) c = [x, y, z] := by
  have hrpos : 0 < x ^ 2 + y ^ 2 + z ^ 2 := lt_of_le_of_ne (by positivity) (Ne.symm hr)
  have hR : Real.sqrt (x ^ 2 + y ^ 2 + z ^ 2) ≠ 0 :=
    ne_of_gt (Real.sqrt_pos.mpr hrpos)
  refine ⟨if c then
            [Real.sqrt (x ^ 2 + y ^ 2 + z ^ 2),
             degrees (Real.arccos (z / Real.sqrt (x ^ 2 + y ^ 2 + z ^ 2))),
             if x = 0 then (if 0 < y then (90:ℝ) else -90) else degrees (Real.arctan (y / x))]
          else
            [Real.sqrt (x ^ 2 + y ^ 2 + z ^ 2),
             (if x = 0 then (if 0 < y then (90:ℝ) else -90) else degrees (Real.arctan (y / x))),
             degrees (Real.arccos (z / Real.sqrt (x ^ 2 + y ^ 2 + z ^ 2)))], ?_, ?_⟩
  · rw [pol_triple, if_neg hR]
  · cases c
    · simp only [Bool.false_eq_true, if_false]
      rw [rec_triple]
      simp only [Bool.false_eq_true, if_false]
      rw [radians_degrees, r_sin_arccos x y z hrpos, r_cos_arccos x y z hrpos,
        ang_cos x y hx, ang_sin x y hx]
    · simp only [if_true]
      rw [rec_triple]
      simp only [if_true]
      rw [radians_degrees, r_sin_arccos x y z hrpos, r_cos_arccos x y z hrpos,
        ang_cos x y hx, ang_sin x y hx]

/-! Section: accumulation lemmas for `add_cartes` -/

lemma sumComp_cons (v : PyObj ℝ) (rest : List (PyObj ℝ)) (i : Nat) :
    sumComp (v :: rest) i = v.elems.getD i 0 + sumComp rest i := by
  simp [sumComp]

lemma sumComp3_cons (v : PyObj ℝ) (rest : List (PyObj ℝ)) :
    sumComp3 (v :: rest) = (if v.len = 3 then v.elems.getD 2 0 else 0) + sumComp3 rest := by
  simp [sumComp3]

lemma add_loop_true2 (vs : List (PyObj ℝ)) (hv : ∀ v ∈ vs, validate_check v = true)
    (r0 r1 : ℝ) :
    add_loop 2 true vs [r0, r1] = Except.ok [r0 + sumComp vs 0, r1 + sumComp vs 1] := by
  induction vs generalizing r0 r1 with
  | nil => simp [add_loop, sumComp]
  | cons v rest ih =>
    have hvv : validate_check v = true := hv v (by simp)
    have hrest : ∀ w ∈ rest, validate_check w = true := fun w hw => hv w (by simp [hw])
    rw [add_loop, validate_vector_throw_of_valid v hvv]
    simp only [if_true]
    rw [if_neg (by simp)]
    have hno3 : ¬((2:Nat) = v.len ∧ v.len = 3) := by omega
    simp only [List.getD, List.set, List.get?, hno3, if_false]
    rw [ih hrest, sumComp_cons, sumComp_cons]
    simp only [Option.getD_some, List.getD]
    ring_nf

lemma add_loop_true3 (vs : List (PyObj ℝ)) (hv : ∀ v ∈ vs, validate_check v = true)
    (r0 r1 r2 : ℝ) :
    add_loop 3 true vs [r0, r1, r2] =
      Except.ok [r0 + sumComp vs 0, r1 + sumComp vs 1, r2 + sumComp3 vs] := by
  induction vs generalizing r0 r1 r2 with
  | nil => simp [add_loop, sumComp, sumComp3]
  | cons v rest ih =>
    have hvv : validate_check v = true := hv v (by simp)
    have hrest : ∀ w ∈ rest, validate_check w = true := fun w hw => hv w (by simp [hw])
    rw [add_loop, validate_vector_throw_of_valid v hvv]
    simp only [if_true]
    rw [if_neg (by simp)]
    by_cases h3 : v.len = 3
    · rw [if_pos ⟨h3.symm, h3⟩]
      simp only [List.getD, List.set, List.get?, Option.getD_some]
      rw [ih hrest, sumComp_cons, sumComp_cons, sumComp3_cons, if_pos h3]
      simp only [List.getD]
      ring_nf
    · rw [if_neg (by omega)]
      simp only [List.getD, List.set, List.get?, Option.getD_some]
      rw [ih hrest, sumComp_cons, sumComp_cons, sumComp3_cons, if_neg h3]
      simp only [List.getD]
      ring_nf

lemma add_loop_nofix_eq (base : Nat) (vs : List (PyObj ℝ))
    (hv : ∀ v ∈ vs, validate_check v = true)
    (hall : ∀ v ∈ vs, v.len = base) (acc : List ℝ) :
    add_loop base false vs acc = add_loop base true vs acc := by
  induction vs generalizing acc with
  | nil => rfl
  | cons v rest ih =>
    have hvv : validate_check v = true := hv v (by simp)
    have hvl : v.len = base := hall v (by simp)
    rw [add_loop, add_loop, validate_vector_throw_of_valid v hvv]
    simp only [if_true]
    rw [if_neg (show ¬(v.len ≠ base ∧ True) by simp [hvl]),
      if_neg (show ¬(v.len ≠ base ∧ true = false) by simp)]
    exact ih (fun w hw => hv w (by simp [hw])) (fun w hw => hall w (by simp [hw])) _

lemma add_loop_nofix_err (base : Nat) (vs : List (PyObj ℝ))
    (hv : ∀ v ∈ vs, validate_check v = true)
    (hex : ∃ v ∈ vs, v.len ≠ base) (acc : List ℝ) :
    add_loop base false vs acc = Except.error PyErr.dimensionError := by
  induction vs generalizing acc with
  | nil => simp at hex
  | cons v rest ih =>
    have hvv : validate_check v = true := hv v (by simp)
    have hrest : ∀ w ∈ rest, validate_check w = true := fun w hw => hv w (by simp [hw])
    rw [add_loop, validate_vector_throw_of_valid v hvv]
    simp only [if_true]
    by_cases hvl : v.len = base
    · rw [if_neg (by simp [hvl])]
      apply ih hrest
      obtain ⟨w, hw, hwne⟩ := hex
      rcases List.mem_cons.mp hw with rfl | hw2
      · exact absurd hvl hwne
      · exact ⟨w, hw2, hwne⟩
    · rw [if_pos (And.intro hvl (by simp))]

lemma add_body_multi (a : PyObj ℝ) (rest : List (PyObj ℝ)) (hrest : rest ≠ [])
    (ha : validate_check a = true) (f : Bool) :
    add_body (a :: rest) f =
      Except.map PyObj.list
        (add_loop a.len f (a :: rest) (if a.len = 2 then [0, 0] else [0, 0, 0])) := by
  have hlen : (a :: rest).length ≠ 1 := by cases rest <;> simp_all
  rw [add_body, if_neg hlen]
  simp only [pyIndex, List.getElem?_cons_zero]
  rw [validate_vector_throw_of_valid a ha]
  simp only [if_true]
  cases h : add_loop a.len f (a :: rest) (if a.len = 2 then [0, 0] else [0, 0, 0]) <;>
    simp [Except.map, h]

lemma add_cartes_of_body_ok (args : List (PyObj ℝ)) (f : Bool) (x : PyObj ℝ)
    (h : add_body args f = Except.ok x) : add_cartes args f = Except.ok x := by
  simp [add_cartes, h]

lemma add_cartes_of_body_dim (args : List (PyObj ℝ)) (f : Bool)
    (h : add_body args f = Except.error PyErr.dimensionError) :
    add_cartes args f = Except.ok (PyObj.list []) := by
  simp [add_cartes, h]

lemma add_multi_fix (a : PyObj ℝ) (rest : List (PyObj ℝ)) (hrest : rest ≠ [])
    (hv : ∀ v ∈ a :: rest, validate_check v = true) :
    add_cartes (a :: rest) true =
      Except.ok (PyObj.list
        (if a.len = 2 then [sumComp (a :: rest) 0, sumComp (a :: rest) 1]
         else [sumComp (a :: rest) 0, sumComp (a :: rest) 1, sumComp3 (a :: rest)])) := by
  have ha := hv a (by simp)
  have hbody := add_body_multi a rest hrest ha true
  rcases len_of_valid a ha with h2 | h3
  · rw [h2] at hbody
    norm_num at hbody
    rw [add_loop_true2 _ hv 0 0] at hbody
    simp only [zero_add, Except.map] at hbody
    rw [if_pos h2]
    exact add_cartes_of_body_ok _ _ _ hbody
  · rw [h3] at hbody
    norm_num at hbody
    rw [add_loop_true3 _ hv 0 0 0] at hbody
    simp only [zero_add, Except.map] at hbody
    rw [if_neg (by omega)]
    exact add_cartes_of_body_ok _ _ _ hbody

lemma add_multi_nofix_ok (a : PyObj ℝ) (rest : List (PyObj ℝ)) (hrest : rest ≠ [])
    (hv : ∀ v ∈ a :: rest, validate_check v = true)
    (hall : ∀ v ∈ a :: rest, v.len = a.len) :
    add_cartes (a :: rest) false =
      Except.ok (PyObj.list
        (if a.len = 2 then [sumComp (a :: rest) 0, sumComp (a :: rest) 1]
         else [sumComp (a :: rest) 0, sumComp (a :: rest) 1, sumComp3 (a :: rest)])) := by
  have ha := hv a (by simp)
  have hbody := add_body_multi a rest hrest ha false
  rw [add_loop_nofix_eq a.len _ hv hall] at hbody
  rcases len_of_valid a ha with h2 | h3
  · rw [h2] at hbody
    norm_num at hbody
    rw [add_loop_true2 _ hv 0 0] at hbody
    simp only [zero_add, Except.map] at hbody
    rw [if_pos h2]
    exact add_cartes_of_body_ok _ _ _ hbody
  · rw [h3] at hbody
    norm_num at hbody
    rw [add_loop_true3 _ hv 0 0 0] at hbody
    simp only [zero_add, Except.map] at hbody
    rw [if_neg (by omega)]
    exact add_cartes_of_body_ok _ _ _ hbody

lemma add_multi_nofix_err (a : PyObj ℝ) (rest : List (PyObj ℝ)) (hrest : rest ≠ [])
    (hv : ∀ v ∈ a :: rest, validate_check v = true)
    (hex : ∃ v ∈ a :: rest, v.len ≠ a.len) :
    add_cartes (a :: rest) false = Except.ok (PyObj.list []) := by
  have ha := hv a (by simp)
  have hbody := add_body_multi a rest hrest ha false
  rw [add_loop_nofix_err a.len _ hv hex] at hbody
  simp only [Except.map] at hbody
  exact add_cartes_of_body_dim _ _ hbody

/-! Section: characterisation of the failure cases of `pol` -/

lemma sq_sum3_eq_zero (a b c : ℝ) :
    a ^ 2 + b ^ 2 + c ^ 2 = 0 ↔ a = 0 ∧ b = 0 ∧ c = 0 := by
  constructor
  · intro h
    refine ⟨?_, ?_, ?_⟩ <;> nlinarith [sq_nonneg a, sq_nonneg b, sq_nonneg c]
  · rintro ⟨rfl, rfl, rfl⟩
    ring

lemma validate_list_big (xs : List ℝ) (h : 4 ≤ xs.length) :
    validate_check (PyObj.list xs) = false := by
  simp [validate_check, PyObj.isIterable, PyObj.isStr, PyObj.len]
  omega

lemma pol_err_char (xs : List ℝ) (ph : Bool) (e : PyErr) :
    pol (PyObj.list xs) ph = Except.error e ↔
      (e = PyErr.zeroDivisionError ∧ validate_check (PyObj.list xs) = true ∧
       PyObj.len (PyObj.list xs) = 3 ∧ (PyObj.elems (PyObj.list xs)).getD 0 0 = 0 ∧
       (PyObj.elems (PyObj.list xs)).getD 1 0 = 0 ∧
       (PyObj.elems (PyObj.list xs)).getD 2 0 = 0) := by
  match xs with
  | [] =>
    rw [pol_invalid (PyObj.list []) ph (by rfl)]
    simp [validate_check, PyObj.len, PyObj.isIterable, PyObj.isStr]
  | [a] =>
    rw [pol_invalid (PyObj.list [a]) ph (by rfl)]
    simp [validate_check, PyObj.len, PyObj.isIterable, PyObj.isStr]
  | [a, b] =>
    rw [pol_pair]
    simp [PyObj.len]
  | [a, b, c] =>
    rw [pol_triple]
    by_cases hR : Real.sqrt (a ^ 2 + b ^ 2 + c ^ 2) = 0
    · have hz : a = 0 ∧ b = 0 ∧ c = 0 := by
        rw [← sq_sum3_eq_zero]
        exact (Real.sqrt_eq_zero (by positivity)).mp hR
      rw [if_pos hR]
      simp [PyObj.len, PyObj.elems, validate_check, PyObj.isIterable, PyObj.isStr,
        hz.1, hz.2.1, hz.2.2, eq_comm]
    · have hz : ¬(a = 0 ∧ b = 0 ∧ c = 0) := by
        intro hc
        apply hR
        rw [show a ^ 2 + b ^ 2 + c ^ 2 = 0 from (sq_sum3_eq_zero a b c).mpr hc]
        exact Real.sqrt_zero
      rw [if_neg hR]
      simp only [PyObj.len, PyObj.elems, List.getD, List.get?, Option.getD_some]
      refine ⟨fun hcon => absurd hcon (by cases ph <;> simp), ?_⟩
      rintro ⟨he, hval, hlen, ha, hb, hc⟩
      exact absurd ⟨ha, hb, hc⟩ hz
  | a :: b :: c :: d :: t =>
    have hbig : validate_check (PyObj.list (a :: b :: c :: d :: t)) = false :=
      validate_list_big _ (by simp)
    rw [pol_invalid _ ph hbig]
    simp [hbig]

/-! Section: evaluation of `two_to_three` -/

lemma two_to_three_invalid (v : PyObj ℝ) (h : validate_check v = false) :
    two_to_three v = Except.ok none := by
  simp [two_to_three, validate_vector, h]

lemma validate_list_23 (xs : List ℝ) (h : xs.length = 2 ∨ xs.length = 3) :
    validate_check (PyObj.list xs) = true := by
  simp [validate_check, PyObj.isIterable, PyObj.isStr, PyObj.len]
  omega

lemma validate_tuple_23 (xs : List ℝ) (h : xs.length = 2 ∨ xs.length = 3) :
    validate_check (PyObj.tuple xs) = true := by
  simp [validate_check, PyObj.isIterable, PyObj.isStr, PyObj.len]
  omega

lemma two_to_three_three (v : PyObj ℝ) (hval : validate_check v = true)
    (h3 : v.len = 3) : two_to_three v = Except.ok (some v) := by
  simp [two_to_three, validate_vector, hval, h3]

lemma two_to_three_list2 (xs : List ℝ) (h2 : xs.length = 2) :
    two_to_three (PyObj.list xs) = Except.ok (some (PyObj.list (xs ++ [0]))) := by
  have hval := validate_list_23 xs (Or.inl h2)
  simp [two_to_three, validate_vector, hval, PyObj.len, h2]

lemma two_to_three_tuple2 (xs : List ℝ) (h2 : xs.length = 2) :
    two_to_three (PyObj.tuple xs) = Except.error PyErr.typeError := by
  have hval := validate_tuple_23 xs (Or.inl h2)
  simp [two_to_three, validate_vector, hval, PyObj.len, h2]

lemma withinTol_of_eq (a b : List ℝ) (h : a = b) : withinTol a b := by
  subst h
  refine ⟨rfl, fun i => ?_⟩
  rw [sub_self, abs_zero]
  norm_num

/-! Section: the claims -/

/-- Claim C1, corrected.  The claim stated that `toPolar((0,0))` returns
exactly `(0, 90)`; on the code the `x == 0` rule takes the `else` branch at
`y = 0` and yields `(0, -90)`.  This counterexample shows the claimed value
is not the computed one. -/
theorem claim1_counterexample :
    pol (PyObj.list [0, 0]) false ≠ Except.ok [0, 90] := by
  rw [pol_pair]
  norm_num

/-- Claim C1, amended.  For the 2D zero vector and either convention flag,
`toCartesian((0,0))` returns exactly `(0, 0)` and `toPolar((0,0))` returns
exactly `(0, -90)` (the `x == 0, y <= 0` branch of the `x == 0` rule). -/
theorem claim1_amended_thm (c : Bool) :
    rec' (PyObj.list [0, 0]) c = [0, 0] ∧
    pol (PyObj.list [0, 0]) c = Except.ok [0, -90] := by
  constructor
  · rw [rec_pair]
    norm_num
  · rw [pol_pair]
    norm_num

/-- Claim C2, corrected.  The claim stated the conversions never raise, in
particular on the 3D zero vector; on the code `pol((0,0,0))` divides by the
zero radius and raises `ZeroDivisionError`. -/
theorem claim2_counterexample :
    pol (PyObj.list [0, 0, 0]) false = Except.error PyErr.zeroDivisionError := by
  rw [pol_triple]
  norm_num

/-- Claim C2, amended.  `toCartesian` never raises for any input (it is a
total function in this embedding), and both conversions turn a failed
validation into an empty-sequence result; `toPolar` raises, and then raises
exactly `ZeroDivisionError`, precisely on the valid 3-element vectors whose
three components are all zero (zero radius). -/
theorem claim2_amended_thm (v : PyObj ℝ) (physics : Bool) :
    (validate_check v = false → rec' v physics = [] ∧ pol v physics = Except.ok []) ∧
    (∀ e, pol v physics = Except.error e ↔
      (e = PyErr.zeroDivisionError ∧ validate_check v = true ∧ v.len = 3 ∧
       v.elems.getD 0 0 = 0 ∧ v.elems.getD 1 0 = 0 ∧ v.elems.getD 2 0 = 0)) := by
  refine ⟨fun h => ⟨rec_invalid v physics h, pol_invalid v physics h⟩, fun e => ?_⟩
  cases v with
  | list xs => exact pol_err_char xs physics e
  | tuple xs => exact pol_err_char xs physics e
  | str s =>
    rw [pol_invalid _ _ (by rfl)]
    simp [validate_check, PyObj.isStr, PyObj.isIterable]
  | nonIterable =>
    rw [pol_invalid _ _ (by rfl)]
    simp [validate_check, PyObj.isStr, PyObj.isIterable]

/-- Witness for claim C2 at the concrete invalid input `"abc"`. -/
theorem claim2_witness :
    validate_check (PyObj.str "abc" : PyObj ℝ) = false ∧
    (rec' (PyObj.str "abc") false = [] ∧ pol (PyObj.str "abc") false = Except.ok []) :=
  ⟨rfl, (claim2_amended_thm (PyObj.str "abc") false).1 rfl⟩

/-- Claim C3, confirmed.  For every invalid input, `validate_vector` with
`throwerr=True` raises the validation error (realised in the source as the
builtin `TypeError`; the specification names it `InvalidVectorError`), and
that kind differs from every other error kind arising elsewhere in the
module (`DimensionError` from addition, `IndexError` from the empty
addition call, `ZeroDivisionError` from zero-radius conversion). -/
theorem claim3_thm (α : Type) (obj : PyObj α) (h : validate_check obj = false) :
    validate_vector obj true = Except.error PyErr.typeError ∧
    PyErr.typeError ≠ PyErr.dimensionError ∧
    PyErr.typeError ≠ PyErr.indexError ∧
    PyErr.typeError ≠ PyErr.zeroDivisionError := by
  refine ⟨by simp [validate_vector, h], by decide, by decide, by decide⟩

/-- Witness for claim C3 at the concrete invalid input `"ab"`. -/
theorem claim3_witness :
    validate_check (PyObj.str "ab" : PyObj ℝ) = false ∧
    validate_vector (PyObj.str "ab" : PyObj ℝ) true = Except.error PyErr.typeError :=
  ⟨rfl, (claim3_thm ℝ (PyObj.str "ab") rfl).1⟩

/-- Claim C4, confirmed.  With `throwerr=False` the validator never raises
and returns exactly its check: true precisely when the input is an ordered
iterable, is not a text string, and has exactly 2 or 3 elements; and the
check never inspects element contents (it is invariant under replacing
every element). -/
theorem claim4_thm (α : Type) (obj : PyObj α) :
    (validate_vector obj false = Except.ok (validate_check obj)) ∧
    (validate_check obj = true ↔
      obj.isIterable = true ∧ obj.isStr = false ∧ (obj.len = 2 ∨ obj.len = 3)) ∧
    (∀ (β : Type) (f : α → β), validate_check (obj.map f) = validate_check obj) := by
  refine ⟨?_, ?_, ?_⟩
  · cases h : validate_check obj <;> simp [validate_vector, h]
  · simp only [validate_check, Bool.and_eq_true, decide_eq_true_eq, Bool.not_eq_true']
    constructor
    · rintro ⟨⟨hit, hstr⟩, h1, h2⟩
      exact ⟨hit, hstr, by omega⟩
    · rintro ⟨hit, hstr, hlen⟩
      exact ⟨⟨hit, hstr⟩, by omega, by omega⟩
  · intro β f
    cases obj <;> simp [PyObj.map, validate_check, PyObj.isIterable, PyObj.isStr, PyObj.len]

/-- Witness for claim C4 at the concrete valid input `[5, 6]`. -/
theorem claim4_witness :
    validate_vector (PyObj.list [(5:ℝ), 6]) false =
      Except.ok (validate_check (PyObj.list [(5:ℝ), 6])) ∧
    validate_check (PyObj.list [(5:ℝ), 6]) = true :=
  ⟨(claim4_thm ℝ (PyObj.list [5, 6])).1,
   ((claim4_thm ℝ (PyObj.list [5, 6])).2.1).mpr ⟨rfl, rfl, Or.inl rfl⟩⟩

/-- Claim C5, confirmed.  For a Cartesian vector with `0 ≤ x` (the half
plane of the single-argument arctangent) and, in the 3D case, nonzero
radius, `toCartesian(toPolar(v, c), c)` recovers `v` within the tolerance
1e-9 (here: exactly, in the idealised real semantics), for both dimensions
and both convention flags. -/
theorem claim5_thm (x y z : ℝ) (c : Bool) (hx : 0 ≤ x)
    (hr : x ^ 2 + y ^ 2 + z ^ 2 ≠ 0) :
    (∃ p, pol (PyObj.list [x, y]) c = Except.ok p ∧
          withinTol (rec' (PyObj.list p) c) [x, y]) ∧
    (∃ q, pol (PyObj.list [x, y, z]) c = Except.ok q ∧
          withinTol (rec' (PyObj.list q) c) [x, y, z]) := by
  obtain ⟨p, hp, hp2⟩ := roundtrip2 x y hx c
  obtain ⟨q, hq, hq2⟩ := roundtrip3 x y z hx hr c
  exact ⟨⟨p, hp, withinTol_of_eq _ _ hp2⟩, ⟨q, hq, withinTol_of_eq _ _ hq2⟩⟩

/-- Witness for claim C5 at the concrete vectors `(1, 0)` and `(1, 0, 1)`. -/
theorem claim5_witness :
    (0:ℝ) ≤ 1 ∧ ((1:ℝ) ^ 2 + 0 ^ 2 + 1 ^ 2 ≠ 0) ∧
    ((∃ p, pol (PyObj.list [(1:ℝ), 0]) false = Except.ok p ∧
           withinTol (rec' (PyObj.list p) false) [1, 0]) ∧
     (∃ q, pol (PyObj.list [(1:ℝ), 0, 1]) false = Except.ok q ∧
           withinTol (rec' (PyObj.list q) false) [1, 0, 1])) :=
  ⟨by norm_num, by norm_num, claim5_thm 1 0 1 false (by norm_num) (by norm_num)⟩

/-- Claim C6, confirmed.  On every valid 3-component input `(r, a, b)` (list
or tuple), `toCartesian` takes the azimuth from component 1 and the
inclination from component 2 under the default math convention and swaps
the two roles under the physics convention, returning
`(r sin(incl) cos(azim), r sin(incl) sin(azim), r cos(incl))` with all
angles converted from degrees to radians. -/
theorem claim6_thm (r a b : ℝ) (physics : Bool) :
    rec' (PyObj.list [r, a, b]) physics =
      [r * Real.sin (radians (if physics then a else b)) *
         Real.cos (radians (if physics then b else a)),
       r * Real.sin (radians (if physics then a else b)) *
         Real.sin (radians (if physics then b else a)),
       r * Real.cos (radians (if physics then a else b))] ∧
    rec' (PyObj.tuple [r, a, b]) physics =
      [r * Real.sin (radians (if physics then a else b)) *
         Real.cos (radians (if physics then b else a)),
       r * Real.sin (radians (if physics then a else b)) *
         Real.sin (radians (if physics then b else a)),
       r * Real.cos (radians (if physics then a else b))] :=
  ⟨rec_triple r a b physics, rec_triple r a b physics⟩

/-- Claim C7, confirmed.  On every 2-component Cartesian input `(x, y)`
(list or tuple), `toPolar` returns radius `sqrt(x^2 + y^2)` and the angle
`+90` when `x = 0 ∧ 0 < y`, `-90` when `x = 0 ∧ y ≤ 0` (hence `-90` on the
degenerate `(0,0)`), and `degrees(atan(y / x))` otherwise. -/
theorem claim7_thm (x y : ℝ) (c : Bool) :
    pol (PyObj.list [x, y]) c =
      Except.ok [Real.sqrt (x ^ 2 + y ^ 2),
        if x = 0 then (if 0 < y then (90:ℝ) else -90)
        else degrees (Real.arctan (y / x))] ∧
    pol (PyObj.tuple [x, y]) c =
      Except.ok [Real.sqrt (x ^ 2 + y ^ 2),
        if x = 0 then (if 0 < y then (90:ℝ) else -90)
        else degrees (Real.arctan (y / x))] :=
  ⟨pol_pair x y c, pol_pair x y c⟩

/-- Claim C8, confirmed.  In a multi-vector call with all arguments valid,
the first vector fixes the base dimension; with `fixdim=False` the result
is the componentwise sum when every vector matches the base dimension and
the empty sequence when any dimension differs; with `fixdim=True` the
result keeps the base dimension, components 0 and 1 sum over every vector,
and component 2 sums only the vectors of length 3 (and only exists when the
base dimension is 3). -/
theorem claim8_thm (a : PyObj ℝ) (rest : List (PyObj ℝ)) (hrest : rest ≠ [])
    (hv : ∀ v ∈ a :: rest, validate_check v = true) :
    ((∀ v ∈ a :: rest, v.len = a.len) →
      add_cartes (a :: rest) false =
        Except.ok (PyObj.list
          (if a.len = 2 then [sumComp (a :: rest) 0, sumComp (a :: rest) 1]
           else [sumComp (a :: rest) 0, sumComp (a :: rest) 1, sumComp3 (a :: rest)]))) ∧
    ((∃ v ∈ a :: rest, v.len ≠ a.len) →
      add_cartes (a :: rest) false = Except.ok (PyObj.list [])) ∧
    (add_cartes (a :: rest) true =
      Except.ok (PyObj.list
        (if a.len = 2 then [sumComp (a :: rest) 0, sumComp (a :: rest) 1]
         else [sumComp (a :: rest) 0, sumComp (a :: rest) 1, sumComp3 (a :: rest)]))) :=
  ⟨fun hall => add_multi_nofix_ok a rest hrest hv hall,
   fun hex => add_multi_nofix_err a rest hrest hv hex,
   add_multi_fix a rest hrest hv⟩

/-- Witness for claim C8: adding the 2D vector `(1,2)` and the 3D vector
`(3,4,5)` with `fixdim=True` drops the third component and yields `(4,6)`. -/
theorem claim8_witness :
    ([PyObj.list [(3:ℝ), 4, 5]] ≠ ([] : List (PyObj ℝ))) ∧
    (∀ v ∈ [PyObj.list [(1:ℝ), 2], PyObj.list [3, 4, 5]], validate_check v = true) ∧
    add_cartes [PyObj.list [(1:ℝ), 2], PyObj.list [3, 4, 5]] true =
      Except.ok (PyObj.list [4, 6]) := by
  refine ⟨by simp, by intro v hv; fin_cases hv <;> rfl, ?_⟩
  have h := (claim8_thm (PyObj.list [(1:ℝ), 2]) [PyObj.list [(3:ℝ), 4, 5]] (by simp)
      (by intro v hv; fin_cases hv <;> rfl)).2.2
  norm_num [sumComp, sumComp3, PyObj.elems, PyObj.len] at h
  exact h

/-- Claim C9, confirmed.  The zero-argument call takes the multi-vector
branch, indexes the empty argument tuple, and the resulting `IndexError`
is not among the kinds caught at the boundary of `add_cartes`, so it
escapes to the caller: the call returns no value at all. -/
theorem claim9_thm (fixdim : Bool) :
    add_body [] fixdim = Except.error PyErr.indexError ∧
    add_cartes [] fixdim = Except.error PyErr.indexError :=
  ⟨rfl, rfl⟩

/-- Claim C10, confirmed.  The helper `two_to_three` returns `None` on every
invalid input, returns a valid 3-element input itself unchanged, and on a
valid 2-element input evaluates the concatenation with `[0]`, which
succeeds for lists and raises `TypeError` for tuples. -/
theorem claim10_thm (v : PyObj ℝ) :
    (validate_check v = false → two_to_three v = Except.ok none) ∧
    (validate_check v = true → v.len = 3 → two_to_three v = Except.ok (some v)) ∧
    (∀ xs, v = PyObj.list xs → xs.length = 2 →
      two_to_three v = Except.ok (some (PyObj.list (xs ++ [0])))) ∧
    (∀ xs, v = PyObj.tuple xs → xs.length = 2 →
      two_to_three v = Except.error PyErr.typeError) := by
  refine ⟨two_to_three_invalid v, two_to_three_three v, ?_, ?_⟩
  · rintro xs rfl h2
    exact two_to_three_list2 xs h2
  · rintro xs rfl h2
    exact two_to_three_tuple2 xs h2

/-- Witness for claim C10 at the concrete 2-element list and tuple `(1, 2)`. -/
theorem claim10_witness :
    two_to_three (PyObj.list [(1:ℝ), 2]) = Except.ok (some (PyObj.list [1, 2, 0])) ∧
    two_to_three (PyObj.tuple [(1:ℝ), 2]) = Except.error PyErr.typeError := by
  refine ⟨?_, (claim10_thm (PyObj.tuple [(1:ℝ), 2])).2.2.2 [1, 2] rfl rfl⟩
  have h := (claim10_thm (PyObj.list [(1:ℝ), 2])).2.2.1 [1, 2] rfl rfl
  simpa using h
